import Mathlib

set_option maxRecDepth 8000

/-
Verification of the clib binding layer of the gmt-python repository.

The repository ships the package entry point (src/gmt/clib/__init__.py) and
the test suite (src/gmt/tests/test_clib.py), but the module implementing the
binding layer itself (gmt/clib/core.py, class LibGMT) is not present under
src/.  The definitions below are therefore a shallow embedding modelled from
the natural-language specification (spec.md), with behaviour that the shipped
tests pin down stated explicitly in the doc comments.  Numeric array contents
are modelled as Lean integers: every concrete value appearing in the claims
(1..15, arange values) is exactly representable in all six supported element
types, including the 32- and 64-bit floats, so integer contents are faithful
for the properties at issue.
-/

namespace GMTClib

/-- Modelled from the spec: the error taxonomy of the missing gmt/clib/core.py
and gmt/exceptions.py (spec section 7).  invalidInput is GMTInvalidInput (a
usage error, detected locally before any foreign call), clibError is
GMTCLibError (a native-call failure), noSession is GMTCLibNoSessionError, and
versionError is GMTVersionError. -/
inductive GMTError where
  | invalidInput (msg : String)
  | clibError (msg : String)
  | noSession (msg : String)
  | versionError (msg : String)
  deriving DecidableEq, Repr

deriving instance DecidableEq for Except

/-- Returns true exactly when a result is the invalid-input usage error. -/
def isInvalidInput : Except GMTError α → Bool
  | .error (.invalidInput _) => true
  | _ => false

/- ------------------------------------------------------------------ -/
/- Constant Resolver                                                   -/
/- ------------------------------------------------------------------ -/

/-- The separator character of composite constant expressions. -/
def bar : Char := '|'

/-- Modelled from the spec: character-level splitting on a separator, as
performed by the Python expression constant.split on the bar character inside
the missing parse_constant.  Mirrors Python semantics: splitting the empty
string yields one empty token. -/
def splitChar (sep : Char) : List Char → List (List Char)
  | [] => [[]]
  | c :: rest =>
      if c = sep then [] :: splitChar sep rest
      else
        match splitChar sep rest with
        | [] => [[c]]
        | r :: rs => (c :: r) :: rs

/-- Modelled from the spec: the inverse join, as performed by the Python
bar-join building a composite constant expression from tokens. -/
def joinChar (sep : Char) : List (List Char) → List Char
  | [] => []
  | [l] => l
  | l :: ls => l ++ sep :: joinChar sep ls

/-- Splits a constant expression on the bar separator. -/
def splitBar (s : String) : List String :=
  (splitChar bar s.data).map String.mk

/-- Joins tokens into a bar-separated composite constant expression. -/
def joinBar (ts : List String) : String :=
  String.mk (joinChar bar (ts.map String.data))

/-- Modelled from the spec: get_constant of the missing gmt/clib/core.py
(spec section 4.2).  The name-to-integer table is supplied by the native
library and treated as opaque (spec section 1); it is passed here explicitly
as an association list.  An unknown name fails with a GMTCLibError, as pinned
by test_constant in src/gmt/tests/test_clib.py. -/
def get_constant (table : List (String × Int)) (name : String) : Except GMTError Int :=
  match table.lookup name with
  | some value => .ok value
  | none => .error (.clibError ("Constant \x27" ++ name ++ "\x27 not found in libgmt."))

/-- Resolves every part of an already-validated expression and adds the
resulting integer codes, as the final summation step of parse_constant. -/
def sumConstants (table : List (String × Int)) : List String → Except GMTError Int
  | [] => .ok 0
  | p :: rest =>
      match get_constant table p with
      | .error e => .error e
      | .ok v =>
          match sumConstants table rest with
          | .error e => .error e
          | .ok s => .ok (v + s)

/-- Modelled from the spec: the parse_constant method of the missing
gmt/clib/core.py (spec section 4.2).  Splits the expression on the bar
separator; the first token must be a member of valid, each remaining token a
member of valid_modifiers (with valid_modifiers absent, any modifier token is
rejected); the result is the sum of the individually resolved constants.  The
shipped tests additionally pin that at most one modifier is accepted:
test_parse_constant_fails in src/gmt/tests/test_clib.py requires the
expression GMT_IS_DATASET|GMT_VIA_MATRIX|GMT_VIA_VECTOR to raise
GMTInvalidInput although both modifiers are individually valid, so the model
includes that check. -/
def parse_constant (table : List (String × Int)) (constant : String)
    (valid : List String) (valid_modifiers : Option (List String)) : Except GMTError Int :=
  let parts := splitBar constant
  let name := parts.headD ""
  let nmodifiers := parts.length - 1
  if 1 < nmodifiers then
    .error (.invalidInput
      ("Only one modifier is allowed in constants, " ++ toString nmodifiers ++
        " given: \x27" ++ constant ++ "\x27"))
  else if 0 < nmodifiers ∧ valid_modifiers = none then
    .error (.invalidInput
      ("Constant modifiers not allowed since valid values were not given: \x27" ++
        constant ++ "\x27"))
  else if name ∉ valid then
    .error (.invalidInput ("Invalid constant argument \x27" ++ name ++ "\x27."))
  else if 0 < nmodifiers ∧ parts.getD 1 "" ∉ valid_modifiers.getD [] then
    .error (.invalidInput
      ("Invalid constant modifier \x27" ++ parts.getD 1 "" ++ "\x27."))
  else
    sumConstants table parts

/-- Modelled from the spec: the primary family namespace accepted by
create_data (spec sections 3 and 4.4; names as used by the shipped tests). -/
def data_families : List String := ["GMT_IS_DATASET", "GMT_IS_GRID"]

/-- Modelled from the spec: the via-modifier namespace selecting the backing
representation of a container (spec section 3). -/
def data_vias : List String := ["GMT_VIA_MATRIX", "GMT_VIA_VECTOR"]

/-- Modelled from the spec: the geometry namespace (names as used by the
shipped tests). -/
def data_geometries : List String :=
  ["GMT_IS_NONE", "GMT_IS_POINT", "GMT_IS_LINE", "GMT_IS_POLYGON",
   "GMT_IS_PLP", "GMT_IS_SURFACE"]

/-- Modelled from the spec: the mode namespace (names as used by the shipped
tests). -/
def data_modes : List String := ["GMT_CONTAINER_ONLY", "GMT_OUTPUT"]

/-- Modelled from the spec: a concrete name-to-integer constant table.  The
table itself is owned by the native library and is out of scope (spec
section 1), so the integer values here are illustrative; every theorem about
parse_constant below is stated for an arbitrary table, and this one only
feeds concrete witnesses.  The column indices GMT_X, GMT_Y, GMT_Z are 0, 1, 2
as used by test_put_vector. -/
def gmt_constants : List (String × Int) :=
  [("GMT_IS_DATASET", 0), ("GMT_IS_GRID", 1),
   ("GMT_VIA_MATRIX", 200), ("GMT_VIA_VECTOR", 100),
   ("GMT_IS_NONE", 0), ("GMT_IS_POINT", 1), ("GMT_IS_LINE", 2),
   ("GMT_IS_POLYGON", 4), ("GMT_IS_PLP", 7), ("GMT_IS_SURFACE", 8),
   ("GMT_CONTAINER_ONLY", 0), ("GMT_OUTPUT", 1),
   ("GMT_X", 0), ("GMT_Y", 1), ("GMT_Z", 2),
   ("GMT_IN", 1), ("GMT_OUT", 2), ("GMT_MODULE_CMD", 0)]

/- ------------------------------------------------------------------ -/
/- Session Manager                                                     -/
/- ------------------------------------------------------------------ -/

/-- Modelled from the spec: the binding-layer state of the missing LibGMT
class.  A session is an opaque native handle; at most one is current (spec
section 3), modelled as an optional handle identifier. -/
structure LibState where
  session : Option Nat
  deriving DecidableEq, Repr

/-- The fixed message of the no-active-session error. -/
def noSessionMessage : String := "No currently open session."

/-- Modelled from the spec: the current_session property of the missing
LibGMT class (spec section 4.3).  With no session set it fails with the
no-active-session error, the primary guard used by every other component. -/
def current_session (st : LibState) : Except GMTError Nat :=
  match st.session with
  | some s => .ok s
  | none => .error (.noSession noSessionMessage)

/-- Modelled from the spec: destroy_session of the missing LibGMT class (spec
section 4.3).  Destroying with no valid handle fails with a GMTCLibError;
otherwise the current session is cleared. -/
def destroy_session (st : LibState) : Except GMTError LibState :=
  match st.session with
  | some _ => .ok { st with session := none }
  | none => .error (.clibError "Failed to destroy GMT API session")

/-- Version comparison of dotted numeric versions, most significant component
first, as performed on the reported native version string. -/
def versionLt : List Nat → List Nat → Bool
  | [], [] => false
  | [], _ :: _ => true
  | _ :: _, [] => false
  | a :: as, b :: bs =>
      if a < b then true
      else if b < a then false
      else versionLt as bs

/-- Renders a dotted version for the version-too-old error message. -/
def versionToString (v : List Nat) : String :=
  String.intercalate "." (v.map toString)

/-- Modelled from the spec: the minimum native version supported by the
binding layer (the shipped tests require at least version 6.0.0). -/
def requiredVersion : List Nat := [6, 0, 0]

/-- Modelled from the spec: session acquisition of the missing LibGMT class
(spec section 4.3).  A session is created and becomes current; the reported
native version is then checked against the supported floor, and when the
check fails the session is fully torn down (via destroy_session) before the
version error propagates, leaving no dangling active session.  The result is
the final binding-layer state paired with the error, if any, that propagates
to the caller. -/
def enter (reported : List Nat) : LibState × Option GMTError :=
  let created : LibState := { session := some 1 }
  if versionLt reported requiredVersion then
    match destroy_session created with
    | .ok cleaned =>
        (cleaned,
         some (.versionError
           ("Using an incompatible GMT version. Must be at least " ++
             versionToString requiredVersion ++ ".")))
    | .error e => (created, some e)
  else (created, none)

/- ------------------------------------------------------------------ -/
/- Module Invoker and Error Reporter                                   -/
/- ------------------------------------------------------------------ -/

/-- Returns true on the whitespace characters removed by the Python strip
call applied to the captured log text. -/
def isSpaceChar (c : Char) : Bool :=
  c = ' ' || c = '\n' || c = '\t' || c = '\r'

/-- Modelled from the spec: trimming of the captured log text, as the Python
strip call performs it: leading and trailing whitespace removed. -/
def stripChars (s : String) : String :=
  String.mk (((s.data.dropWhile isSpaceChar).reverse.dropWhile isSpaceChar).reverse)

/-- Modelled from the spec: the fixed literal template of the
module-execution-failed error message (spec section 4.6), as pinned verbatim
by test_call_module_error_message: the module name and the trimmed captured
log text inside a labeled block. -/
def moduleErrorMessage (module log : String) : String :=
  "Command \x27" ++ module ++ "\x27 failed:\n---------- Error log ----------\n" ++
    stripChars log ++ "\n-------------------------------"

/-- Modelled from the spec: call_module of the missing LibGMT class (spec
section 4.6).  The native side (a temporary log redirection wrapped around
the module dispatcher) is abstracted as a function from the session handle,
module name and argument string to the returned status code paired with the
captured log text.  Without an active session the call fails with the
no-active-session error before the native side is consulted; on non-zero
status it fails with the module-execution-failed message built from the
module name and the captured log. -/
def call_module (native : Nat → String → String → Int × String)
    (st : LibState) (module : String) (args : String) : Except GMTError Unit :=
  match current_session st with
  | .error e => .error e
  | .ok session =>
      let r := native session module args
      if r.1 ≠ 0 then .error (.clibError (moduleErrorMessage module r.2))
      else .ok ()

/- ------------------------------------------------------------------ -/
/- Data Container Builder                                              -/
/- ------------------------------------------------------------------ -/

/-- Modelled from the spec: the closed set of host-array element types the
marshalling code dispatches on, plus a representative unsupported type
(complex128, used by test_put_vector_invalid_dtype). -/
inductive DType where
  | int32 | int64 | uint32 | uint64 | float32 | float64 | complex128
  deriving DecidableEq, Repr

/-- The numpy name of an element type, as embedded in error messages. -/
def dtypeName : DType → String
  | .int32 => "int32"
  | .int64 => "int64"
  | .uint32 => "uint32"
  | .uint64 => "uint64"
  | .float32 => "float32"
  | .float64 => "float64"
  | .complex128 => "complex128"

/-- The supported element types, in the order the shipped round-trip tests
iterate over them. -/
def supportedDtypes : List DType :=
  [.float32, .float64, .int32, .int64, .uint32, .uint64]

/-- Modelled from the spec: the fixed dispatch table from supported element
types to the native type constants (spec section 4.4). -/
def DTYPES : List (DType × String) :=
  [(.float64, "GMT_DOUBLE"), (.float32, "GMT_FLOAT"),
   (.int64, "GMT_LONG"), (.int32, "GMT_INT"),
   (.uint64, "GMT_ULONG"), (.uint32, "GMT_UINT")]

/-- A host numeric array: an element-type tag, a shape (one entry per
dimension) and the flattened row-major contents.  Contents are Lean integers;
every value in the claims is exactly representable in all six supported
element types, floats included. -/
structure NpArray where
  dtype : DType
  shape : List Nat
  data : List Int
  deriving DecidableEq, Repr

/-- Modelled from the spec: the dtype-and-dimension validation shared by
put_vector and put_matrix (spec section 4.4).  An element type outside the
fixed supported set fails with invalid input naming the unsupported type; a
dimensionality other than the expected one fails with invalid input.  On
success the native type constant name is returned. -/
def check_dtype_and_dim (array : NpArray) (ndim : Nat) : Except GMTError String :=
  match DTYPES.lookup array.dtype with
  | none =>
      .error (.invalidInput
        ("Unsupported numpy data type \x27" ++ dtypeName array.dtype ++ "\x27."))
  | some gmt_type =>
      if array.shape.length ≠ ndim then
        .error (.invalidInput
          ("Expected a numpy " ++ toString ndim ++ "d array, got " ++
            toString array.shape.length ++ "d."))
      else .ok gmt_type

/-- Modelled from the spec: a native data container (spec section 3), tagged
by its backing representation: vector-backed (column-oriented, one stored
list per column) or matrix-backed (a single 2-D block stored as rows).  The
declared column and row counts come from the dim argument of create_data. -/
inductive Container where
  | vector (n_columns n_rows : Nat) (cols : List (List Int))
  | matrix (n_columns n_rows : Nat) (rows : List (List Int))
  deriving DecidableEq, Repr

/-- The declared (rows, columns) shape of a container. -/
def containerShape : Container → Nat × Nat
  | .vector c r _ => (r, c)
  | .matrix c r _ => (r, c)

/-- Modelled from the spec: create_data of the missing LibGMT class (spec
section 4.4).  The family expression is resolved against the family namespace
with the via modifiers allowed, geometry and mode against their namespaces;
an unresolvable value fails with invalid input before any native call.  The
container is sized from dim, given as columns, rows, layers, type; the
ranges-and-inc sizing path and the native null-handle failure are exercised
by no claim and are omitted.  The backing representation follows the via
modifier of the family expression. -/
def create_data (table : List (String × Int)) (family geometry mode : String)
    (dim : List Nat) : Except GMTError Container :=
  match parse_constant table family data_families (some data_vias) with
  | .error e => .error e
  | .ok _ =>
  match parse_constant table geometry data_geometries none with
  | .error e => .error e
  | .ok _ =>
  match parse_constant table mode data_modes none with
  | .error e => .error e
  | .ok _ =>
  match dim with
  | [columns, rows, _, _] =>
      if (splitBar family).contains "GMT_VIA_MATRIX" then
        .ok (.matrix columns rows [])
      else .ok (.vector columns rows (List.replicate columns []))
  | _ => .error (.invalidInput "Must specify dim as columns, rows, layers, type.")

/-- Modelled from the spec: the native GMT_Put_Vector entry point (spec
section 6): stores a column into a vector-backed container, returning none
(a non-zero status) when the column index is outside the declared column
count or the container is not vector-backed. -/
def gmtPutVector (c : Container) (column : Nat) (data : List Int) : Option Container :=
  match c with
  | .vector nc nr cols =>
      if column < nc then some (.vector nc nr (cols.set column data)) else none
  | .matrix _ _ _ => none

/-- Modelled from the spec: put_vector of the missing LibGMT class (spec
section 4.4).  The native entry point is passed explicitly so that theorems
can quantify over it: the usage errors of the validation step hold for every
native behaviour, which expresses that they are raised before any native
call.  A non-zero native status fails with a container-rejected-vector
GMTCLibError. -/
def put_vector (native : Container → Nat → List Int → Option Container)
    (c : Container) (column : Nat) (vector : NpArray) : Except GMTError Container :=
  match check_dtype_and_dim vector 1 with
  | .error e => .error e
  | .ok _ =>
      match native c column vector.data with
      | none =>
          .error (.clibError
            ("Failed to put vector of type " ++ dtypeName vector.dtype ++
              " in column " ++ toString column ++ " of dataset."))
      | some c2 => .ok c2

/-- Splits a flattened row-major block into the given number of rows of the
given width, as the native matrix container stores it. -/
def unflatten (rows cols : Nat) (l : List Int) : List (List Int) :=
  match rows with
  | 0 => []
  | r + 1 => l.take cols :: unflatten r cols (l.drop cols)

/-- Modelled from the spec: put_matrix of the missing LibGMT class (spec
section 4.4).  Same type dispatch as put_vector, accepting only
two-dimensional input; on success the 2-D block is stored in the
matrix-backed container.  The pad argument defaults to zero in the source and
is not observable in the modelled round trip. -/
def put_matrix (c : Container) (matrix : NpArray) (_pad : Nat) : Except GMTError Container :=
  match check_dtype_and_dim matrix 2 with
  | .error e => .error e
  | .ok _ =>
      match c, matrix.shape with
      | .matrix nc nr _, [rows, cols] =>
          .ok (.matrix nc nr (unflatten rows cols matrix.data))
      | _, _ => .error (.clibError "Failed to put matrix of in dataset.")

/-- Modelled from the spec: write_data of the missing LibGMT class writes the
container out as a plain text table, one row per line (spec sections 4.4 and
8).  A vector-backed container holds columns, so the written rows are their
transpose; a matrix-backed container holds the rows directly.  The family,
geometry, mode and output-path arguments select the on-disk format and are
not observable in the modelled round trip. -/
def write_data (c : Container) : Except GMTError (List (List Int)) :=
  match c with
  | .vector _ _ cols => .ok cols.transpose
  | .matrix _ _ rows => .ok rows

/-- Modelled from the spec: reloading the written text table, as numpy
loadtxt does in the round-trip tests; with unpack set the rows are
transposed back into columns. -/
def loadtxt (file : List (List Int)) (unpack : Bool) : List (List Int) :=
  if unpack then file.transpose else file

/- ------------------------------------------------------------------ -/
/- Virtual File Bridge                                                 -/
/- ------------------------------------------------------------------ -/

/-- Modelled from the spec: the scoped open_virtual_file of the missing
LibGMT class (spec section 4.5).  The direction must be one of the two
directional constants or the call fails with invalid input prior to the
native call.  The native open and close statuses are passed explicitly, and
the scoped block is a function of the yielded virtual file name.  A non-zero
open status fails with the virtual-file-open-failed error and the block is
never entered; the close at scope exit runs on every path, and a non-zero
close status fails with the virtual-file-close-failed error even though the
close happens during cleanup. -/
def open_virtual_file (direction : String) (openStatus closeStatus : Int)
    (vfname : String) (block : String → Except GMTError Unit) : Except GMTError Unit :=
  if direction ≠ "GMT_IN" ∧ direction ≠ "GMT_OUT" then
    .error (.invalidInput ("Invalid direction argument: " ++ direction))
  else if openStatus ≠ 0 then
    .error (.clibError "Failed to create a virtual file.")
  else
    let result := block vfname
    if closeStatus ≠ 0 then
      .error (.clibError ("Failed to close virtual file \x27" ++ vfname ++ "\x27."))
    else result

/-- Modelled from the spec: matrix_to_vfile of the missing LibGMT class (spec
section 4.5): given a single 2-D array, possibly a slice of a larger array,
build a matrix-backed container sized to the actual shape of the slice, not
the parent array, and fill it with put_matrix.  The subsequent scoped
virtual-file opening is modelled by open_virtual_file above; this function
returns the container whose contents the virtual file exposes. -/
def matrix_to_vfile (matrix : NpArray) : Except GMTError Container :=
  match matrix.shape with
  | [rows, columns] =>
      match create_data gmt_constants "GMT_IS_DATASET|GMT_VIA_MATRIX" "GMT_IS_POINT"
          "GMT_CONTAINER_ONLY" [columns, rows, 1, 0] with
      | .error e => .error e
      | .ok dataset => put_matrix dataset matrix 0
  | _ => .error (.invalidInput "Expected a 2d matrix.")

/- ------------------------------------------------------------------ -/
/- Concrete pipelines of the round-trip tests                          -/
/- ------------------------------------------------------------------ -/

/-- A list of the first n naturals as integers, as numpy arange produces. -/
def arange (n : Nat) : List Int :=
  (List.range n).map Int.ofNat

/-- A 2-D arange array of the given shape and element type. -/
def arange2d (dtype : DType) (r c : Nat) : NpArray :=
  { dtype := dtype, shape := [r, c], data := arange (r * c) }

/-- The slice taking the first rows and cols of a 2-D array, as the numpy
basic slice of the parent array does; for cols smaller than the parent width
the result is a non-contiguous view, whose visible values and shape are what
this model records. -/
def slice2d (a : NpArray) (rows cols : Nat) : NpArray :=
  match a.shape with
  | [r, c] =>
      { dtype := a.dtype, shape := [min rows r, min cols c],
        data := (((unflatten r c a.data).take rows).map (List.take cols)).flatten }
  | _ => a

/-- Embeds the round trip of test_put_vector: create a vector-backed
point-geometry dataset of 3 columns and 5 rows, put the three columns with
put_vector at the GMT_X, GMT_Y, GMT_Z indices 0, 1, 2, write the container
out with write_data and reload the written table column-wise. -/
def put_vector_roundtrip (dtype : DType) : Except GMTError (List (List Int)) :=
  match create_data gmt_constants "GMT_IS_DATASET|GMT_VIA_VECTOR" "GMT_IS_POINT"
      "GMT_CONTAINER_ONLY" [3, 5, 1, 0] with
  | .error e => .error e
  | .ok dataset =>
  match put_vector gmtPutVector dataset 0 { dtype := dtype, shape := [5], data := [1, 2, 3, 4, 5] } with
  | .error e => .error e
  | .ok dataset =>
  match put_vector gmtPutVector dataset 1 { dtype := dtype, shape := [5], data := [6, 7, 8, 9, 10] } with
  | .error e => .error e
  | .ok dataset =>
  match put_vector gmtPutVector dataset 2 { dtype := dtype, shape := [5], data := [11, 12, 13, 14, 15] } with
  | .error e => .error e
  | .ok dataset =>
  match write_data dataset with
  | .error e => .error e
  | .ok file => .ok (loadtxt file true)

/-- Embeds the round trip of test_put_matrix: create a matrix-backed
point-geometry dataset sized 4 columns by 3 rows, put a 3 by 4 arange matrix
and write it out. -/
def put_matrix_roundtrip (dtype : DType) : Except GMTError (List (List Int)) :=
  match create_data gmt_constants "GMT_IS_DATASET|GMT_VIA_MATRIX" "GMT_IS_POINT"
      "GMT_CONTAINER_ONLY" [4, 3, 1, 0] with
  | .error e => .error e
  | .ok dataset =>
  match put_matrix dataset (arange2d dtype 3 4) 0 with
  | .error e => .error e
  | .ok dataset =>
  match write_data dataset with
  | .error e => .error e
  | .ok file => .ok (loadtxt file false)

/-- Embeds test_matrix_to_vfile_slice: a 10 by 6 arange parent array is
sliced to its first 5 rows and 3 columns (a non-contiguous slice), passed to
matrix_to_vfile, and the resulting container is written out; the result pairs
the container shape with the written table. -/
def matrix_slice_roundtrip (dtype : DType) : Except GMTError ((Nat × Nat) × List (List Int)) :=
  match matrix_to_vfile (slice2d (arange2d dtype 10 6) 5 3) with
  | .error e => .error e
  | .ok c =>
  match write_data c with
  | .error e => .error e
  | .ok file => .ok (containerShape c, loadtxt file false)

/- ------------------------------------------------------------------ -/
/- Helper lemmas on splitting and joining                              -/
/- ------------------------------------------------------------------ -/

theorem splitChar_of_not_mem (sep : Char) (l : List Char) (h : sep ∉ l) :
    splitChar sep l = [l] := by
  induction l with
  | nil => rfl
  | cons c rest ih =>
      have hc : ¬(c = sep) := fun hcs => h (hcs ▸ List.mem_cons_self c rest)
      have hrest : sep ∉ rest := fun hr => h (List.mem_cons_of_mem c hr)
      simp [splitChar, hc, ih hrest]

theorem splitChar_append (sep : Char) (l xs : List Char) (h : sep ∉ l) :
    splitChar sep (l ++ sep :: xs) = l :: splitChar sep xs := by
  induction l with
  | nil => simp [splitChar]
  | cons c rest ih =>
      have hc : ¬(c = sep) := fun hcs => h (hcs ▸ List.mem_cons_self c rest)
      have hrest : sep ∉ rest := fun hr => h (List.mem_cons_of_mem c hr)
      simp [splitChar, hc, ih hrest]

theorem splitChar_joinChar (sep : Char) (ls : List (List Char))
    (h : ∀ l ∈ ls, sep ∉ l) (hne : ls ≠ []) :
    splitChar sep (joinChar sep ls) = ls := by
  induction ls with
  | nil => exact absurd rfl hne
  | cons l rest ih =>
      cases rest with
      | nil => simpa [joinChar] using splitChar_of_not_mem sep l (h l (by simp))
      | cons l2 t =>
          have h1 : sep ∉ l := h l (by simp)
          have ht : ∀ x ∈ l2 :: t, sep ∉ x := fun x hx => h x (by simp [hx])
          calc splitChar sep (joinChar sep (l :: l2 :: t))
              = splitChar sep (l ++ sep :: joinChar sep (l2 :: t)) := by simp [joinChar]
            _ = l :: splitChar sep (joinChar sep (l2 :: t)) := splitChar_append sep l _ h1
            _ = l :: l2 :: t := by rw [ih ht (by simp)]

theorem mk_data_eq (s : String) : String.mk s.data = s := by
  cases s
  rfl

theorem splitBar_no_bar (s : String) (h : bar ∉ s.data) : splitBar s = [s] := by
  simp [splitBar, splitChar_of_not_mem bar s.data h, mk_data_eq]

theorem splitBar_joinBar (ts : List String) (h : ∀ t ∈ ts, bar ∉ t.data)
    (hne : ts ≠ []) : splitBar (joinBar ts) = ts := by
  have hdata : (String.mk (joinChar bar (ts.map String.data))).data =
      joinChar bar (ts.map String.data) := rfl
  have hx : ∀ l ∈ ts.map String.data, bar ∉ l := by
    intro l hl
    rcases List.mem_map.mp hl with ⟨t, ht, rfl⟩
    exact h t ht
  have hmapne : ts.map String.data ≠ [] := by
    simpa using hne
  rw [splitBar, joinBar, hdata, splitChar_joinChar bar (ts.map String.data) hx hmapne,
    List.map_map]
  have hfun : (String.mk ∘ String.data) = id := funext fun t => mk_data_eq t
  rw [hfun, List.map_id]

/- ------------------------------------------------------------------ -/
/- C1: composite constants resolve to the sum of their parts           -/
/- ------------------------------------------------------------------ -/

/-- Claim C1, counterexample: the claim quantifies over sequences of zero or
more valid modifiers, but an expression carrying two individually valid
modifiers is rejected with an invalid-input error instead of resolving to
the sum 0 + 200 + 100 = 300 of its parts. -/
theorem parse_constant_multi_modifier_cex :
    get_constant gmt_constants "GMT_IS_DATASET" = .ok 0 ∧
    get_constant gmt_constants "GMT_VIA_MATRIX" = .ok 200 ∧
    get_constant gmt_constants "GMT_VIA_VECTOR" = .ok 100 ∧
    "GMT_IS_DATASET" ∈ data_families ∧
    "GMT_VIA_MATRIX" ∈ data_vias ∧ "GMT_VIA_VECTOR" ∈ data_vias ∧
    isInvalidInput (parse_constant gmt_constants
      "GMT_IS_DATASET|GMT_VIA_MATRIX|GMT_VIA_VECTOR" data_families (some data_vias)) = true ∧
    parse_constant gmt_constants "GMT_IS_DATASET|GMT_VIA_MATRIX|GMT_VIA_VECTOR"
      data_families (some data_vias) ≠ .ok 300 := by
  decide

/-- Claim C1 (amended to the one-modifier limit the code enforces): for a
valid primary A alone the expression resolves to its constant, and for a
valid primary A with one valid modifier B the bar-joined expression resolves
to the sum of the two individually resolved constants. -/
theorem parse_constant_modifier_sum (table : List (String × Int))
    (valid mods : List String) (A B : String) (a b : Int)
    (hA : bar ∉ A.data) (hB : bar ∉ B.data)
    (hAv : A ∈ valid) (hBm : B ∈ mods)
    (ha : get_constant table A = .ok a) (hb : get_constant table B = .ok b) :
    parse_constant table A valid (some mods) = .ok a ∧
    parse_constant table (joinBar [A, B]) valid (some mods) = .ok (a + b) := by
  have hs1 : splitBar A = [A] := splitBar_no_bar A hA
  have hs2 : splitBar (joinBar [A, B]) = [A, B] := by
    refine splitBar_joinBar [A, B] ?_ (by simp)
    intro t ht
    simp only [List.mem_cons, List.not_mem_nil, or_false] at ht
    rcases ht with rfl | rfl
    · exact hA
    · exact hB
  constructor
  · simp [parse_constant, hs1, hAv, sumConstants, ha]
  · simp [parse_constant, hs2, hAv, hBm, sumConstants, ha, hb]

/-- Claim C1 witness: the amended sum property instantiated on the dataset
family with the matrix via modifier from the modelled constant table. -/
theorem parse_constant_modifier_sum_witness :
    parse_constant gmt_constants "GMT_IS_DATASET" data_families (some data_vias) = .ok 0 ∧
    parse_constant gmt_constants (joinBar ["GMT_IS_DATASET", "GMT_VIA_MATRIX"])
      data_families (some data_vias) = .ok (0 + 200) :=
  parse_constant_modifier_sum gmt_constants data_families data_vias
    "GMT_IS_DATASET" "GMT_VIA_MATRIX" 0 200 (by decide) (by decide)
    (by decide) (by decide) (by decide) (by decide)

/- ------------------------------------------------------------------ -/
/- C10: more than one modifier is rejected even when each is valid     -/
/- ------------------------------------------------------------------ -/

/-- Claim C10: an expression of a valid primary followed by two modifiers is
rejected with an invalid-input error even when both modifiers are valid
members of the modifier set. -/
theorem parse_constant_two_modifiers (table : List (String × Int))
    (valid mods : List String) (A B C : String)
    (hA : bar ∉ A.data) (hB : bar ∉ B.data) (hC : bar ∉ C.data)
    (hAv : A ∈ valid) (hBm : B ∈ mods) (hCm : C ∈ mods) :
    parse_constant table (joinBar [A, B, C]) valid (some mods) =
      .error (.invalidInput
        ("Only one modifier is allowed in constants, " ++ toString (2 : Nat) ++
          " given: \x27" ++ joinBar [A, B, C] ++ "\x27")) := by
  have hs : splitBar (joinBar [A, B, C]) = [A, B, C] := by
    refine splitBar_joinBar [A, B, C] ?_ (by simp)
    intro t ht
    simp only [List.mem_cons, List.not_mem_nil, or_false] at ht
    rcases ht with rfl | rfl | rfl
    · exact hA
    · exact hB
    · exact hC
  simp [parse_constant, hs]

/-- Claim C10 witness: the rejected expression of test_parse_constant_fails,
a valid family with both valid via modifiers. -/
theorem parse_constant_two_modifiers_witness :
    parse_constant gmt_constants (joinBar ["GMT_IS_DATASET", "GMT_VIA_MATRIX", "GMT_VIA_VECTOR"])
      data_families (some data_vias) =
      .error (.invalidInput
        ("Only one modifier is allowed in constants, " ++ toString (2 : Nat) ++
          " given: \x27" ++ joinBar ["GMT_IS_DATASET", "GMT_VIA_MATRIX", "GMT_VIA_VECTOR"] ++ "\x27")) :=
  parse_constant_two_modifiers gmt_constants data_families data_vias
    "GMT_IS_DATASET" "GMT_VIA_MATRIX" "GMT_VIA_VECTOR"
    (by decide) (by decide) (by decide) (by decide) (by decide) (by decide)

/- ------------------------------------------------------------------ -/
/- C7: usage errors of parse_constant are local invalid-input errors   -/
/- ------------------------------------------------------------------ -/

/-- Claim C7: whenever the first token of the expression is not in the valid
primary set, or some later token is not in the valid modifier set, or a
modifier token appears while the modifier set is empty or absent, the call
fails with the invalid-input usage error for every constant table, so the
error is raised locally and is never a native-call failure. -/
theorem parse_constant_usage_guard (valid : List String)
    (vmods : Option (List String)) (ts : List String)
    (hbar : ∀ t ∈ ts, bar ∉ t.data) (hne : ts ≠ [])
    (hviol : ts.headD "" ∉ valid ∨
      (∃ t ∈ ts.tail, t ∉ vmods.getD []) ∨
      (ts.tail ≠ [] ∧ vmods.getD [] = [])) :
    ∀ table, isInvalidInput (parse_constant table (joinBar ts) valid vmods) = true := by
  intro table
  have hs := splitBar_joinBar ts hbar hne
  rcases ts with _ | ⟨A, _ | ⟨B, _ | ⟨C, rest⟩⟩⟩
  · exact absurd rfl hne
  · rcases hviol with h | h | h
    · simp at h
      simp [parse_constant, hs, isInvalidInput, h]
    · simp at h
    · simp at h
  · rcases vmods with _ | mods
    · simp [parse_constant, hs, isInvalidInput]
    · by_cases hA : A ∈ valid
      · have hBm : B ∉ mods := by
          rcases hviol with h | h | h
          · simp at h
            exact absurd hA h
          · simpa using h
          · simp at h
            simp [h]
        simp [parse_constant, hs, isInvalidInput, hA, hBm]
      · simp [parse_constant, hs, isInvalidInput, hA]
  · have hlt : 1 < (A :: B :: C :: rest).length - 1 := by
      simp [List.length_cons]
    simp only [parse_constant, hs]
    rw [if_pos hlt]
    rfl

/-- Claim C7 witness: the first failing expression of
test_parse_constant_fails, an unknown primary token, rejected without
consulting the constant table. -/
theorem parse_constant_usage_guard_witness :
    isInvalidInput (parse_constant gmt_constants (joinBar ["SOME_random_STRING"])
      data_families (some data_vias)) = true :=
  parse_constant_usage_guard data_families (some data_vias) ["SOME_random_STRING"]
    (by decide) (by decide) (Or.inl (by decide)) gmt_constants

/- ------------------------------------------------------------------ -/
/- C2: vector-backed round trip over all supported element types       -/
/- ------------------------------------------------------------------ -/

/-- Claim C2: for every supported element type, creating a vector-backed
point-geometry dataset of 3 columns and 5 rows, putting the columns 1..5,
6..10 and 11..15, writing the container out and reloading it reproduces the
three original arrays exactly; every one of these values is exactly
representable in both floating-point types, so integer contents model the
float cases faithfully as well. -/
theorem put_vector_roundtrip_ok :
    ∀ dtype ∈ supportedDtypes,
      put_vector_roundtrip dtype =
        .ok [[1, 2, 3, 4, 5], [6, 7, 8, 9, 10], [11, 12, 13, 14, 15]] := by
  intro d hd
  cases d <;> revert hd <;> decide

/-- Claim C2 witness: the round trip instantiated at the 32-bit signed
integer element type. -/
theorem put_vector_roundtrip_ok_witness :
    put_vector_roundtrip .int32 =
      .ok [[1, 2, 3, 4, 5], [6, 7, 8, 9, 10], [11, 12, 13, 14, 15]] :=
  put_vector_roundtrip_ok .int32 (by decide)

/- ------------------------------------------------------------------ -/
/- C6: matrix-backed round trip, including a non-contiguous slice      -/
/- ------------------------------------------------------------------ -/

/-- Claim C6: for every supported element type, the write and reload round
trip holds for 2-D matrix-backed containers: a full 3 by 4 arange matrix is
reproduced exactly, and for the 5 by 3 slice of a 10 by 6 parent array taken
through matrix_to_vfile the container is sized (5, 3), the shape of the
slice and not of the parent, and the output holds exactly the values of the
slice. -/
theorem matrix_roundtrip_ok :
    ∀ dtype ∈ supportedDtypes,
      put_matrix_roundtrip dtype = .ok [[0, 1, 2, 3], [4, 5, 6, 7], [8, 9, 10, 11]] ∧
      matrix_slice_roundtrip dtype =
        .ok ((5, 3), [[0, 1, 2], [6, 7, 8], [12, 13, 14], [18, 19, 20], [24, 25, 26]]) := by
  intro d hd
  cases d <;> revert hd <;> decide

/-- Claim C6 witness: the matrix round trips instantiated at the 64-bit
float element type. -/
theorem matrix_roundtrip_ok_witness :
    put_matrix_roundtrip .float64 = .ok [[0, 1, 2, 3], [4, 5, 6, 7], [8, 9, 10, 11]] ∧
    matrix_slice_roundtrip .float64 =
      .ok ((5, 3), [[0, 1, 2], [6, 7, 8], [12, 13, 14], [18, 19, 20], [24, 25, 26]]) :=
  matrix_roundtrip_ok .float64 (by decide)

/- ------------------------------------------------------------------ -/
/- C3: a failed version check leaves no active session                 -/
/- ------------------------------------------------------------------ -/

/-- Claim C3: when the native library reports a version below the supported
floor, session acquisition propagates the version error naming the required
minimum with the session already fully torn down: the final state holds no
session, and a subsequent access to current_session raises the
no-active-session error rather than any stale-session failure. -/
theorem enter_version_cleanup (reported : List Nat)
    (h : versionLt reported requiredVersion = true) :
    (enter reported).1.session = none ∧
    (enter reported).2 = some (.versionError
      ("Using an incompatible GMT version. Must be at least " ++
        versionToString requiredVersion ++ ".")) ∧
    current_session (enter reported).1 = .error (.noSession noSessionMessage) := by
  simp [enter, h, destroy_session, current_session]

/-- Claim C3 witness: the old version 5.4.3 reported by the mock of
test_fails_for_wrong_version is below the 6.0.0 floor. -/
theorem enter_version_cleanup_witness :
    (enter [5, 4, 3]).1.session = none ∧
    (enter [5, 4, 3]).2 = some (.versionError
      ("Using an incompatible GMT version. Must be at least " ++
        versionToString requiredVersion ++ ".")) ∧
    current_session (enter [5, 4, 3]).1 = .error (.noSession noSessionMessage) :=
  enter_version_cleanup [5, 4, 3] (by decide)

/- ------------------------------------------------------------------ -/
/- C4: failed module calls report the captured log verbatim            -/
/- ------------------------------------------------------------------ -/

/-- Claim C4: whenever the native dispatcher returns a non-zero status,
call_module fails with the module-execution-failed error whose message is
the fixed literal template embedding the module name and the trimmed
captured log between the labeled delimiters. -/
theorem call_module_failed_message (st : LibState) (s : Nat)
    (hs : st.session = some s) (status : Int) (hst : status ≠ 0)
    (module args log : String) :
    call_module (fun _ _ _ => (status, log)) st module args =
      .error (.clibError (moduleErrorMessage module log)) := by
  simp [call_module, current_session, hs, hst]

/-- Claim C4 witness: the failing info call of
test_call_module_error_message, whose captured log carries the native
diagnostic line for the nonexistent input file; the raised message is
exactly the labeled block of the test. -/
theorem call_module_failed_message_witness :
    call_module
      (fun _ _ _ =>
        (78, "gmtinfo [ERROR]: Error for input file: No such file (bogus-data.bla)\n"))
      { session := some 1 } "info" "bogus-data.bla" =
      .error (.clibError
        ("Command \x27info\x27 failed:\n---------- Error log ----------\n" ++
          "gmtinfo [ERROR]: Error for input file: No such file (bogus-data.bla)" ++
          "\n-------------------------------")) := by
  rw [call_module_failed_message { session := some 1 } 1 rfl 78 (by decide)
    "info" "bogus-data.bla"
    "gmtinfo [ERROR]: Error for input file: No such file (bogus-data.bla)\n"]
  decide

/- ------------------------------------------------------------------ -/
/- C5: the no-active-session guard fires before any native call        -/
/- ------------------------------------------------------------------ -/

/-- Claim C5: with no current session, reading current_session raises the
no-active-session error, and call_module raises the same no-active-session
error for every possible native behaviour, so no log redirection and no
native-library call takes place. -/
theorem no_session_guard (st : LibState) (h : st.session = none) :
    current_session st = .error (.noSession noSessionMessage) ∧
    ∀ native module args,
      call_module native st module args = .error (.noSession noSessionMessage) := by
  constructor
  · simp [current_session, h]
  · intro native module args
    simp [call_module, current_session, h]

/-- Claim C5 witness: the freshly constructed binding-layer state of
test_method_no_session, which holds no session. -/
theorem no_session_guard_witness :
    current_session { session := none } = .error (.noSession noSessionMessage) ∧
    call_module (fun _ _ _ => (0, "")) { session := none } "gmtdefaults" "" =
      .error (.noSession noSessionMessage) :=
  ⟨(no_session_guard { session := none } rfl).1,
   (no_session_guard { session := none } rfl).2 (fun _ _ _ => (0, "")) "gmtdefaults" ""⟩

/- ------------------------------------------------------------------ -/
/- C8: virtual-file open and close failures are both surfaced          -/
/- ------------------------------------------------------------------ -/

/-- Claim C8: for a valid direction, a non-zero native open status raises
the virtual-file-open-failed error with the scoped block never entered (the
result is the same for every block), and a non-zero native close status at
scope exit raises the virtual-file-close-failed error for every block, so
the close failure is propagated to the caller even though closing happens
during cleanup. -/
theorem open_virtual_file_status_errors (direction vfname : String)
    (hd : direction = "GMT_IN" ∨ direction = "GMT_OUT")
    (openStatus closeStatus : Int) :
    (openStatus ≠ 0 → ∀ block,
      open_virtual_file direction openStatus closeStatus vfname block =
        .error (.clibError "Failed to create a virtual file.")) ∧
    (closeStatus ≠ 0 → ∀ block,
      open_virtual_file direction 0 closeStatus vfname block =
        .error (.clibError ("Failed to close virtual file \x27" ++ vfname ++ "\x27."))) := by
  constructor
  · intro hopen block
    rcases hd with rfl | rfl <;> simp [open_virtual_file, hopen]
  · intro hclose block
    rcases hd with rfl | rfl <;> simp [open_virtual_file, hclose]

/-- Claim C8 witness: the mocked statuses of test_virtual_file_fails, an
input-direction virtual file whose native open, then whose native close,
returns status 1. -/
theorem open_virtual_file_status_errors_witness :
    open_virtual_file "GMT_IN" 1 0 "@GMTAPI@-000000" (fun _ => .ok ()) =
      .error (.clibError "Failed to create a virtual file.") ∧
    open_virtual_file "GMT_IN" 0 1 "@GMTAPI@-000000" (fun _ => .ok ()) =
      .error (.clibError ("Failed to close virtual file \x27" ++ "@GMTAPI@-000000" ++ "\x27.")) :=
  ⟨(open_virtual_file_status_errors "GMT_IN" "@GMTAPI@-000000" (Or.inl rfl) 1 0).1
      (by decide) (fun _ => .ok ()),
   (open_virtual_file_status_errors "GMT_IN" "@GMTAPI@-000000" (Or.inl rfl) 0 1).2
      (by decide) (fun _ => .ok ())⟩

/- ------------------------------------------------------------------ -/
/- C9: put_vector usage errors fire before any native call             -/
/- ------------------------------------------------------------------ -/

/-- Claim C9: put_vector fails with the invalid-input error naming the
unsupported element type for every array whose type is outside the fixed
supported set, and with an invalid-input error for every array that is not
exactly one-dimensional; in both cases the result is the same for every
native behaviour, so the error is raised before any native call. -/
theorem put_vector_usage_errors (v : NpArray) :
    (DTYPES.lookup v.dtype = none → ∀ native c column,
      put_vector native c column v =
        .error (.invalidInput
          ("Unsupported numpy data type \x27" ++ dtypeName v.dtype ++ "\x27."))) ∧
    (v.shape.length ≠ 1 → ∀ native c column,
      isInvalidInput (put_vector native c column v) = true) := by
  constructor
  · intro hdt native c column
    simp [put_vector, check_dtype_and_dim, hdt]
  · intro hdim native c column
    rcases hlk : DTYPES.lookup v.dtype with _ | gt
    · simp [put_vector, check_dtype_and_dim, hlk, isInvalidInput]
    · simp [put_vector, check_dtype_and_dim, hlk, hdim, isInvalidInput]

/-- Claim C9 witness: the complex128 array of test_put_vector_invalid_dtype
and the two-dimensional int32 array of test_put_vector_2d_fails are both
rejected with invalid input, independently of the native vector writer. -/
theorem put_vector_usage_errors_witness :
    put_vector gmtPutVector (.vector 2 3 [[], []]) 1
      { dtype := .complex128, shape := [3], data := [37, 12, 556] } =
      .error (.invalidInput
        ("Unsupported numpy data type \x27" ++ dtypeName .complex128 ++ "\x27.")) ∧
    isInvalidInput (put_vector gmtPutVector (.vector 1 6 [[]]) 0
      { dtype := .int32, shape := [2, 3], data := [37, 12, 556, 37, 12, 556] }) = true :=
  ⟨(put_vector_usage_errors
      { dtype := .complex128, shape := [3], data := [37, 12, 556] }).1
      (by decide) gmtPutVector (.vector 2 3 [[], []]) 1,
   (put_vector_usage_errors
      { dtype := .int32, shape := [2, 3], data := [37, 12, 556, 37, 12, 556] }).2
      (by decide) gmtPutVector (.vector 1 6 [[]]) 0⟩

end GMTClib
